import Mathlib

/-!
Verification of the GLRECS bot (src/GLRECS-BOT/GLRECS.py).

The script is a sequential orchestrator over two external HTTP APIs.  We
embed its pure logic directly (string classification, description parsing,
pagination, folder selection) and model its effectful parts as functions
from an explicit environment — which supplies the outcomes of the external
API calls — to a result together with a trace of the external actions the
code performs, in order.  Machine-level details (OAuth, MIME transport,
local paths) are irrelevant to the claims and are represented by the
strings the code itself manipulates.
-/

/-! ### Python string primitives used by the script -/

/-- Characters removed by Python `str.strip()` (ASCII whitespace). -/
def isPySpace (c : Char) : Bool :=
  c == ' ' || c == '\t' || c == '\n' || c == '\r' || c == '\x0b' || c == '\x0c'

/-- Python str.strip() on the character list: drop leading and trailing whitespace. -/
def stripL (l : List Char) : List Char :=
  ((l.dropWhile isPySpace).reverse.dropWhile isPySpace).reverse

/-- Python str.lower() (the file names involved are ASCII). -/
def pyLower (s : String) : String :=
  String.mk (s.toList.map Char.toLower)

/-- Python str.endswith(suffix). -/
def pyEndsWith (s suffix : String) : Bool :=
  List.isSuffixOf suffix.toList s.toList

/-- Python renders `None` as the string "None" inside an f-string;
    `os.getenv` yields `None` when the variable is absent. -/
def pyRenderOpt : Option String → String
  | none => "None"
  | some s => s

/-! ### Configuration constants (GLRECS.py lines 65-75) -/

/-- The tuple supported_formats of lines 65-71, copied verbatim. -/
def supported_formats : List String :=
  [".jpg", ".jpeg", ".png", ".webp", ".gif", ".bmp",
   ".tiff", ".svg", ".heif", ".ico", ".raw", ".jfif",
   ".exif", ".dng", ".weep", ".mp4", ".avi", ".mov", ".wmv",
   ".mkv", ".flv", ".webm", ".gifv",
   ".mp3", ".wav", ".aac", ".ogg"]

/-- The tuple supported_text_extensions of lines 72-75, copied verbatim. -/
def supported_text_extensions : List String :=
  [".txt", ".rtf", ".doc", ".docx", ".pdf", ".odt", ".markdown",
   ".csv", ".html", ".xml", ".json"]

/-- The test name.lower().endswith(supported_formats) of lines 119 and 200. -/
def isImageName (s : String) : Bool :=
  supported_formats.any (fun e => pyEndsWith (pyLower s) e)

/-- The test name.lower().endswith(supported_text_extensions) of lines 120 and 201. -/
def isTextName (s : String) : Bool :=
  supported_text_extensions.any (fun e => pyEndsWith (pyLower s) e)

/-! ### Data model -/

/-- A remote folder: `files(id, name)` of the Drive listing. -/
structure Folder where
  id : String
  name : String
deriving DecidableEq

/-- A remote file: `files(id, name, mimeType)` of the Drive listing. -/
structure RFile where
  id : String
  name : String
  mimeType : String
deriving DecidableEq

/-! ### Storage browser: pagination (`list_drive_folders`, lines 78-99)

The Drive API is modelled as a sequence of page responses: `remote i` is
the `files` field of the i-th response; response i carries a
`nextPageToken` exactly when another page follows.  The while loop always
issues at least one request, extends the accumulator with the page's
files, and continues while a token is present.  `r` counts the responses
that still follow the current one (the token chain). -/

def listLoop (remote : Nat → List Folder) : Nat → List Folder → Nat → List Folder
  | i, acc, 0 => acc ++ remote i
  | i, acc, r + 1 => listLoop remote (i + 1) (acc ++ remote i) r

/-- Function list_drive_folders, over a remote that serves `numPages` responses
    (`numPages ≥ 1` in any actual exchange: the API always answers the
    first request, with an empty `files` list when there are no folders). -/
def list_drive_folders (remote : Nat → List Folder) (numPages : Nat) : List Folder :=
  listLoop remote 0 [] (numPages - 1)

/-! ### Folder validation and selection (`select_valid_drive_folder`, lines 114-125) -/

/-- The acceptance test of lines 119-121: `has_image and has_text`. -/
def folderOk (files : List RFile) : Bool :=
  (files.any fun f => isImageName f.name) && (files.any fun f => isTextName f.name)

/-- The `for folder in folders` loop of lines 117-123: return the first
    folder whose file listing passes `folderOk`.  `filesOf` models
    `list_drive_files`. -/
def select_loop (filesOf : String → List RFile) : List Folder → Option Folder
  | [] => none
  | f :: rest =>
      if folderOk (filesOf f.id) then some f else select_loop filesOf rest

/-- Function select_valid_drive_folder: random.shuffle (modelled by the
    permutation oracle `shuffle`) followed by the scan. -/
def select_valid_drive_folder (shuffle : List Folder → List Folder)
    (filesOf : String → List RFile) (folders : List Folder) : Option Folder :=
  select_loop filesOf (shuffle folders)

/-! ### Description parser (`get_alt_text_from_description`, lines 183-196)

The argument is the result of reading the description file: `none` when
the `open`/`read` raises (unreadable file), `some raw` otherwise. -/

def get_alt_text_from_description : Option String → String × String
  | none => ("Sapphic Recommendation", "No description available.")
  | some raw =>
      let c := stripL raw.toList
      if c.isEmpty then ("Sapphic Recommendation", "No description available.")
      else
        let alt := if c.contains '.' then c.takeWhile (fun ch => ch != '.')
                   else c.take 100
        (String.mk (stripL alt), String.mk c)

/-! ### Post publisher (`tweet_images_from_folder`, lines 198-215) -/

/-- Errors a Twitter API call can raise; the source's bare
    `except Exception` does not distinguish them. -/
inductive TwError
  | tooManyRequests
  | otherError
deriving DecidableEq

/-- External actions the script can perform, in trace order.  `createReply`
    and `sleepSecs` never occur in any trace of this variant of the code;
    they are included so their absence is expressible. -/
inductive Eff
  | driveListFolders (parent : String)
  | download (folderId : String)
  | mediaUpload (path : String)
  | mediaMetadata (altText : String)
  | createTweet (text : String)
  | createReply (parentPostId : String) (text : String)
  | sleepSecs (n : Nat)
deriving DecidableEq

def isReplyEff : Eff → Bool
  | .createReply _ _ => true
  | _ => false

def isSleepEff : Eff → Bool
  | .sleepSecs _ => true
  | _ => false

def isTweetEff : Eff → Bool
  | .createTweet _ => true
  | _ => false

def isUploadEff : Eff → Bool
  | .mediaUpload _ => true
  | _ => false

def isDownloadEff : Eff → Bool
  | .download _ => true
  | _ => false

/-- True unless the action is a primary post with a text other than the
    fixed caption. -/
def tweetTextIsCaption (caption : String) : Eff → Bool
  | .createTweet t => t == caption
  | _ => true

/-- The fixed caption of line 210, copied verbatim. -/
def tweet_caption : String := "₊ ⊹ ❤︎ sapphic recommendations ❤︎ ⊹ ₊"

/-- Environment of one `tweet_images_from_folder` call: `localNames` is
    `os.listdir(folder_path)` (we keep bare names; the `os.path.join`
    prefix is common to every entry and irrelevant to classification),
    `choiceIdx` resolves `random.choice`, `descContent` is the content of
    `descriptions[0]` (`none` when reading raises), and the three outcome
    fields say whether each Twitter call succeeds or raises. -/
structure PubEnv where
  localNames : List String
  choiceIdx : Nat
  descContent : Option String
  uploadResult : Except TwError Nat
  metadataOk : Bool
  tweetOk : Bool

/-- Function tweet_images_from_folder: returns the Python return value and the
    trace of attempted Twitter API calls.  A call that raises still
    appears in the trace (it was issued); everything after it is skipped
    by the `except` clause, which returns `False`. -/
def tweet_images_from_folder (env : PubEnv) : Bool × List Eff :=
  let images := env.localNames.filter isImageName
  let descriptions := env.localNames.filter isTextName
  if images.isEmpty || descriptions.isEmpty then (false, [])
  else
    let selected := images.getD (env.choiceIdx % images.length) ""
    let ad := get_alt_text_from_description env.descContent
    match env.uploadResult with
    | .error _ => (false, [Eff.mediaUpload selected])
    | .ok _ =>
        if env.metadataOk then
          if env.tweetOk then
            (true, [Eff.mediaUpload selected, Eff.mediaMetadata ad.1,
                    Eff.createTweet tweet_caption])
          else
            (false, [Eff.mediaUpload selected, Eff.mediaMetadata ad.1,
                     Eff.createTweet tweet_caption])
        else
          (false, [Eff.mediaUpload selected, Eff.mediaMetadata ad.1])

/-! ### Orchestrator (`tweet_random_images`, lines 217-223) -/

/-- Environment of one run: the configuration's folder id (`none` when the
    variable is unset), the paged remote folder listing, the shuffle
    oracle, the per-folder remote file listings, and the local publish
    environment produced by downloading a given folder. -/
structure RunEnv where
  folderId : Option String
  pages : Nat → List Folder
  numPages : Nat
  shuffle : List Folder → List Folder
  filesOf : String → List RFile
  pubEnvOf : String → PubEnv

/-- Function tweet_random_images: list folders (one API call, with the configured
    parent id rendered into the query), select a valid folder, and if one
    exists download it and publish.  The Python function returns `None`;
    we surface `none` when no publish was attempted and `some b` for the
    publish result `b`.  The per-folder `list_drive_files` calls and the
    per-file downloads inside `download_drive_folder` are folded into the
    `driveListFolders`/`download` actions. -/
def tweet_random_images (env : RunEnv) : Option Bool × List Eff :=
  let folders := list_drive_folders env.pages env.numPages
  let listEff := [Eff.driveListFolders (pyRenderOpt env.folderId)]
  match select_valid_drive_folder env.shuffle env.filesOf folders with
  | none => (none, listEff)
  | some f =>
      let res := tweet_images_from_folder (env.pubEnvOf f.id)
      (some res.1, listEff ++ Eff.download f.id :: res.2)

/-! ### Content fetcher (`download_file_from_drive`, lines 139-181) -/

/-- Metadata returned by `files().get(fileId, fields="mimeType, name")`. -/
structure GMeta where
  mimeType : String
  name : String
deriving DecidableEq

/-- Environment of one fetch: the outcome of the metadata call and the
    outcome of the media request plus chunked download that follows it. -/
structure FetchEnv where
  metaResult : Except String GMeta
  downloadResult : Except String Unit

/-- Observable outcome of `download_file_from_drive`. -/
inductive FetchOutcome
  | downloaded (path : String)
  | loggedError (msg : String)
  | unhandledNameError
deriving DecidableEq

/-- The dict export_mime_types of lines 147-152, verbatim. -/
def export_mime_types : List (String × String) :=
  [("application/vnd.google-apps.document",
    "application/vnd.openxmlformats-officedocument.wordprocessingml.document"),
   ("application/vnd.google-apps.spreadsheet", "text/csv"),
   ("application/vnd.google-apps.presentation", "application/pdf"),
   ("application/vnd.google-apps.drawing", "image/png")]

/-- The dict extension_map of lines 159-164, verbatim. -/
def extension_map : List (String × String) :=
  [("application/vnd.openxmlformats-officedocument.wordprocessingml.document", ".docx"),
   ("text/csv", ".csv"),
   ("application/pdf", ".pdf"),
   ("image/png", ".png")]

/-- Python os.path.splitext first component: the path without its last extension.  The
    extension is the part of the basename from its last dot on, except
    that leading dots of the basename never start an extension. -/
def splitext_root (p : String) : String :=
  let rev := p.toList.reverse
  let baseRev := rev.takeWhile (fun c => c != '/')
  let dirRev := rev.drop baseRev.length
  let base := baseRev.reverse
  let leading := base.takeWhile (fun c => c == '.')
  let rest := base.drop leading.length
  if rest.contains '.' then
    let stem := ((rest.reverse.dropWhile (fun c => c != '.')).drop 1).reverse
    String.mk (dirRev.reverse ++ leading ++ stem)
  else p

/-- Function download_file_from_drive.  The whole body sits in one
    try/except Exception whose handler logs a message that interpolates
    the local variable file_name.  That local
    is assigned only after the metadata call succeeds, so when
    that call itself raises, evaluating the handler's message raises
    `UnboundLocalError`, which escapes the function; any later failure
    finds `file_name` bound and is logged normally. -/
def download_file_from_drive (env : FetchEnv) (destination_path : String) : FetchOutcome :=
  match env.metaResult with
  | .error _ => .unhandledNameError
  | .ok meta =>
      let dest :=
        match export_mime_types.lookup meta.mimeType with
        | some exportMime =>
            let ext := (extension_map.lookup exportMime).getD ".txt"
            splitext_root destination_path ++ ext
        | none => destination_path
      match env.downloadResult with
      | .error e => .loggedError e
      | .ok _ => .downloaded dest

/-! ### Concrete environments used by counterexamples and witnesses -/

/-- A remote file listing with one image and one description file. -/
def filesImageAndText : String → List RFile := fun _ =>
  [⟨"i1", "pic.png", "image/png"⟩, ⟨"d1", "desc.txt", "text/plain"⟩]

/-- A downloaded folder whose publish succeeds on every Twitter call. -/
def pubAllOk : PubEnv :=
  ⟨["pic.png", "desc.txt"], 0, some "Nice rec. Full text here.", .ok 1, true, true⟩

/-- Same folder, but the media upload raises a rate-limit error. -/
def pubRateLimited : PubEnv :=
  ⟨["pic.png", "desc.txt"], 0, some "Nice rec. Full text here.",
   .error .tooManyRequests, true, true⟩

/-- Same folder, but the media upload raises some other error. -/
def pubUploadFails : PubEnv :=
  ⟨["pic.png", "desc.txt"], 0, some "Nice rec. Full text here.",
   .error .otherError, true, true⟩

/-- Same folder, with a description whose content begins with a period. -/
def pubLeadingPeriod : PubEnv :=
  ⟨["pic.png", "desc.txt"], 0, some ".abc", .ok 1, true, true⟩

/-- A run with two valid candidate folders whose publish step fails. -/
def runTwoFoldersPubFails : RunEnv :=
  ⟨some "parent", fun _ => [⟨"f1", "A"⟩, ⟨"f2", "B"⟩], 1, id,
   filesImageAndText, fun _ => pubUploadFails⟩

/-- A run whose configuration lacks the parent-folder identifier. -/
def runMissingFolderId : RunEnv :=
  ⟨none, fun _ => [], 1, id, filesImageAndText, fun _ => pubAllOk⟩

/-! ### Helper lemmas -/

/-- Testing a list with any is the same as testing that countP is nonzero. -/
theorem any_eq_countP_ne_zero (p : α → Bool) :
    ∀ l : List α, l.any p = (l.countP p != 0)
  | [] => rfl
  | a :: l => by
      by_cases h : p a <;>
        simp [List.any_cons, List.countP_cons, h, any_eq_countP_ne_zero p l]

/-- The accumulator-passing page loop returns the accumulator followed by
    the concatenation of the pages it visits. -/
theorem listLoop_spec (remote : Nat → List Folder) :
    ∀ (r i : Nat) (acc : List Folder),
      listLoop remote i acc r = acc ++ ((List.range' i (r + 1)).map remote).flatten
  | 0, i, acc => by simp [listLoop, List.range']
  | r + 1, i, acc => by
      simp [listLoop, listLoop_spec remote r (i + 1) (acc ++ remote i), List.range']

/-- Claim C9 (confirmed): the folder listing pages through all `n + 1`
    responses and returns exactly their concatenation — every element of
    every page once, in order, with no omissions — and a remote with a
    single empty page yields the empty sequence rather than an error. -/
theorem list_drive_folders_exhaustive :
    (∀ (remote : Nat → List Folder) (n : Nat),
       list_drive_folders remote (n + 1) = ((List.range (n + 1)).map remote).flatten)
    ∧ list_drive_folders (fun _ => ([] : List Folder)) 1 = [] := by
  refine ⟨fun remote n => ?_, by decide⟩
  simp [list_drive_folders, listLoop_spec, List.range_eq_range']

/-- Claim C10 (confirmed): extraction takes the first sentence, trimmed,
    as alt text and the whole trimmed content as full text; an empty or
    unreadable file yields the designated fallback pair. -/
theorem description_extraction_examples :
    get_alt_text_from_description (some "Hello world. More text here.")
      = ("Hello world", "Hello world. More text here.")
    ∧ get_alt_text_from_description (some "")
      = ("Sapphic Recommendation", "No description available.")
    ∧ get_alt_text_from_description none
      = ("Sapphic Recommendation", "No description available.") := by
  decide

/-- Claim C8 (code bug): when the initial metadata call raises, the
    `except` handler evaluates the unassigned local `file_name` and the
    resulting `UnboundLocalError` escapes the fetch, contradicting the
    catch-and-log intent; a failure after the metadata call is caught and
    logged as intended. -/
theorem metadata_failure_escapes_handler :
    download_file_from_drive ⟨Except.error "HttpError 404: file removed", Except.ok ()⟩
        "./GLRECS_temp/A/desc.txt" = FetchOutcome.unhandledNameError
    ∧ download_file_from_drive ⟨Except.ok ⟨"text/plain", "desc.txt"⟩,
        Except.error "network timeout"⟩ "./GLRECS_temp/A/desc.txt"
        = FetchOutcome.loggedError "network timeout" := by
  decide

/-- Claim C4 (corrected): classification uses the extension alone — a file
    is a description file iff its lowercased name ends with one of the
    fixed document extensions; no name prefix is required, so
    `DESCRIP.TXT`, `description.docx` and also `notdesc.txt` are all
    description files, and `IMAGE.PNG` is an image. -/
theorem description_classification_by_extension :
    (∀ s : String, isTextName s = true
        ↔ ∃ e, e ∈ supported_text_extensions ∧ pyEndsWith (pyLower s) e = true)
    ∧ isTextName "DESCRIP.TXT" = true
    ∧ isTextName "description.docx" = true
    ∧ isTextName "notdesc.txt" = true
    ∧ isImageName "IMAGE.PNG" = true
    ∧ isTextName "photo.png" = false := by
  refine ⟨fun s => ?_, by decide, by decide, by decide, by decide, by decide⟩
  simp [isTextName, List.any_eq_true]

/-- Claim C4, counterexample: the code classifies `notdesc.txt` as a
    description file, though the claim says it must not. -/
theorem notdesc_classified_as_description : isTextName "notdesc.txt" = true := by
  decide

/-- Claim C5 (corrected): a folder is accepted iff it has at least one
    image and at least one description file; there is no exactly-one
    requirement.  A folder with only an image or only a description file
    is rejected; one with one of each is accepted. -/
theorem folder_usable_iff_any :
    (∀ files : List RFile,
       folderOk files = ((files.countP (fun f => isImageName f.name) != 0)
                          && (files.countP (fun f => isTextName f.name) != 0)))
    ∧ folderOk [⟨"i1", "pic.png", "image/png"⟩] = false
    ∧ folderOk [⟨"d1", "desc.txt", "text/plain"⟩] = false
    ∧ folderOk [⟨"i1", "pic.png", "image/png"⟩, ⟨"d1", "desc.txt", "text/plain"⟩] = true := by
  refine ⟨fun files => ?_, by decide, by decide, by decide⟩
  simp [folderOk, any_eq_countP_ne_zero]

/-- Claim C5, counterexample: a folder with one image and two description
    files is accepted by the code, though the claim requires exactly one
    description file. -/
theorem folder_with_two_descriptions_accepted :
    folderOk [⟨"i1", "pic.png", "image/png"⟩, ⟨"d1", "a.txt", "text/plain"⟩,
              ⟨"d2", "b.txt", "text/plain"⟩] = true
    ∧ ([⟨"i1", "pic.png", "image/png"⟩, ⟨"d1", "a.txt", "text/plain"⟩,
        ⟨"d2", "b.txt", "text/plain"⟩] : List RFile).countP
          (fun f => isTextName f.name) = 2 := by
  decide

/-! ### Helper lemmas for selection, publishing and stripping -/

/-- The selection scan is exactly a first-match search. -/
theorem select_loop_eq_find (filesOf : String → List RFile) :
    ∀ fs : List Folder, select_loop filesOf fs = fs.find? (fun f => folderOk (filesOf f.id))
  | [] => rfl
  | f :: rest => by
      by_cases h : folderOk (filesOf f.id) <;>
        simp [select_loop, h, select_loop_eq_find filesOf rest]

/-- Every trace of the publish operation attempts at most one media upload. -/
theorem publish_upload_once (env : PubEnv) :
    (tweet_images_from_folder env).2.countP isUploadEff ≤ 1 := by
  obtain ⟨ln, ci, dc, ur, mo, tw⟩ := env
  cases ur <;> cases mo <;> cases tw <;>
    simp [tweet_images_from_folder, isUploadEff] <;>
    split <;>
    simp [List.countP_cons, List.countP_nil, isUploadEff]

/-- Dropping while a predicate holds leaves a list whose head falsifies it. -/
theorem dropWhile_head_false (p : Char → Bool) :
    ∀ (l : List Char) (a : Char) (t : List Char), l.dropWhile p = a :: t → p a = false
  | [], a, t, h => by simp [List.dropWhile] at h
  | x :: xs, a, t, h => by
      rw [List.dropWhile_cons] at h
      by_cases hx : p x
      · simp only [hx, if_true] at h
        exact dropWhile_head_false p xs a t h
      · simp only [hx, if_false] at h
        injection h with h1 _
        subst h1
        exact Bool.eq_false_iff.mpr hx

/-- A trailing element that falsifies the predicate survives dropWhile and
    heads the reversal. -/
theorem revDropWhile_append (p : Char → Bool) (a : Char) (ha : p a = false) :
    ∀ l : List Char, ∃ t, ((l ++ [a]).dropWhile p).reverse = a :: t
  | [] => ⟨[], by simp [List.dropWhile_cons, ha]⟩
  | x :: l => by
      by_cases hx : p x
      · obtain ⟨t, ht⟩ := revDropWhile_append p a ha l
        exact ⟨t, by simpa [List.dropWhile_cons, hx] using ht⟩
      · exact ⟨l.reverse ++ [x], by simp [List.dropWhile_cons, hx]⟩

/-- The head of a stripped list is never whitespace. -/
theorem stripL_head_not_space :
    ∀ (l : List Char) (a : Char) (t : List Char), stripL l = a :: t → isPySpace a = false := by
  intro l a t h
  unfold stripL at h
  cases hm : l.dropWhile isPySpace with
  | nil => rw [hm] at h; simp at h
  | cons b m =>
      have hb : isPySpace b = false := dropWhile_head_false isPySpace l b m hm
      obtain ⟨t', ht'⟩ := revDropWhile_append isPySpace b hb m.reverse
      rw [hm, List.reverse_cons, ht'] at h
      injection h with h1 _
      rw [← h1]
      exact hb

/-- Stripping keeps a list that starts with a non-whitespace character nonempty. -/
theorem stripL_cons_ne_nil (a : Char) (s : List Char) (ha : isPySpace a = false) :
    stripL (a :: s) ≠ [] := by
  unfold stripL
  have h1 : (a :: s).dropWhile isPySpace = a :: s := by
    simp [List.dropWhile_cons, ha]
  rw [h1, List.reverse_cons]
  obtain ⟨t, ht⟩ := revDropWhile_append isPySpace a ha s.reverse
  rw [ht]
  simp

/-- A string built from a nonempty character list is not the empty string. -/
theorem string_mk_ne_empty {l : List Char} (h : l ≠ []) : String.mk l ≠ "" := by
  intro he
  apply h
  have h2 := congrArg String.toList he
  simpa using h2

/-- The alt-text candidate is stripped to a nonempty list whenever the
    stripped content starts with a character that is neither whitespace
    nor a period. -/
theorem altL_ne_nil (c : List Char) (a : Char) (t : List Char) (hc : c = a :: t)
    (ha : isPySpace a = false) (hadot : a ≠ '.') :
    stripL (if c.contains '.' then c.takeWhile (fun ch => ch != '.') else c.take 100) ≠ [] := by
  subst hc
  by_cases hdot : (a :: t).contains '.'
  · rw [if_pos hdot]
    have hkeep : (a :: t).takeWhile (fun ch => ch != '.') =
        a :: t.takeWhile (fun ch => ch != '.') := by
      simp [List.takeWhile_cons, hadot]
    rw [hkeep]
    exact stripL_cons_ne_nil a _ ha
  · rw [if_neg hdot]
    have htk : (a :: t).take 100 = a :: t.take 99 := rfl
    rw [htk]
    exact stripL_cons_ne_nil a _ ha

/-- Unfolding of the extraction on nonempty stripped content. -/
theorem get_alt_some_eq (raw : String) (h : stripL raw.toList ≠ []) :
    get_alt_text_from_description (some raw)
      = (String.mk (stripL (if (stripL raw.toList).contains '.'
            then (stripL raw.toList).takeWhile (fun ch => ch != '.')
            else (stripL raw.toList).take 100)),
         String.mk (stripL raw.toList)) := by
  have h2 : stripL raw.data ≠ [] := h
  simp [get_alt_text_from_description, h2]

/-! ### Claim theorems -/

/-- Claim C1 (corrected): the publish operation never creates a reply
    post — for every environment its trace contains no reply action, and
    every primary post it creates carries the fixed caption, so the full
    description text is never posted. -/
theorem publisher_never_posts_reply (env : PubEnv) :
    (tweet_images_from_folder env).2.countP isReplyEff = 0
    ∧ (tweet_images_from_folder env).2.all (tweetTextIsCaption tweet_caption) = true := by
  obtain ⟨ln, ci, dc, ur, mo, tw⟩ := env
  cases ur <;> cases mo <;> cases tw <;>
    simp [tweet_images_from_folder, isReplyEff, tweetTextIsCaption] <;>
    split <;>
    simp [List.countP_cons, List.countP_nil, isReplyEff, tweetTextIsCaption]

/-- Claim C1, counterexample: a fully successful publish whose trace
    contains the upload, the alt-text attachment and the captioned primary
    post, and no reply at all — refuting the claim that every successful
    publish is followed by a reply containing the description. -/
theorem publish_success_without_reply :
    tweet_images_from_folder pubAllOk
      = (true, [Eff.mediaUpload "pic.png", Eff.mediaMetadata "Nice rec",
                Eff.createTweet tweet_caption])
    ∧ (tweet_images_from_folder pubAllOk).2.countP isReplyEff = 0 := by
  decide

/-- Claim C2 (corrected): candidate folders are retried only during
    validation — the selector scans the shuffled candidates in order and
    returns the first one that validates, reporting none exactly when all
    fail — while the publisher is invoked at most once per run, so a
    publish failure terminates the run without trying another folder. -/
theorem orchestrator_single_publish_attempt :
    (∀ (sh : List Folder → List Folder) (filesOf : String → List RFile) (fs : List Folder),
       select_valid_drive_folder sh filesOf fs = (sh fs).find? (fun f => folderOk (filesOf f.id)))
    ∧ (∀ env : RunEnv, (tweet_random_images env).2.countP isUploadEff ≤ 1) := by
  constructor
  · intro sh filesOf fs
    simp [select_valid_drive_folder, select_loop_eq_find]
  · intro env
    unfold tweet_random_images
    cases hsel : select_valid_drive_folder env.shuffle env.filesOf
        (list_drive_folders env.pages env.numPages) with
    | none => simp [hsel, isUploadEff]
    | some f =>
        simp [hsel, List.countP_cons, List.countP_append, isUploadEff]
        exact publish_upload_once (env.pubEnvOf f.id)

/-- Claim C2, counterexample: two valid candidate folders, the publish
    step fails on the selected one, and the run ends after a single
    download and a single upload attempt even though the other folder is
    valid and untried — refuting the claim that a failed publish leads to
    another folder being attempted. -/
theorem publish_failure_ends_run :
    tweet_random_images runTwoFoldersPubFails
      = (some false, [Eff.driveListFolders "parent", Eff.download "f1",
                      Eff.mediaUpload "pic.png"])
    ∧ folderOk (runTwoFoldersPubFails.filesOf "f2") = true
    ∧ (tweet_random_images runTwoFoldersPubFails).2.countP isDownloadEff = 1 := by
  decide

/-- Claim C3 (corrected): when the media upload raises a rate-limit
    error the attempt is reported failed with no post created and no
    retry, but the run does not pause — the trace contains no sleep at
    all. -/
theorem rate_limit_no_pause (env : PubEnv)
    (h : env.uploadResult = Except.error TwError.tooManyRequests) :
    (tweet_images_from_folder env).1 = false
    ∧ (tweet_images_from_folder env).2.countP isSleepEff = 0
    ∧ (tweet_images_from_folder env).2.countP isTweetEff = 0 := by
  obtain ⟨ln, ci, dc, ur, mo, tw⟩ := env
  simp only at h
  subst h
  simp [tweet_images_from_folder, isSleepEff, isTweetEff]
  split <;> simp [List.countP_cons, List.countP_nil, isSleepEff, isTweetEff]

/-- Claim C3, witness. -/
theorem rate_limit_no_pause_witness :
    (tweet_images_from_folder pubRateLimited).1 = false
    ∧ (tweet_images_from_folder pubRateLimited).2.countP isSleepEff = 0
    ∧ (tweet_images_from_folder pubRateLimited).2.countP isTweetEff = 0 :=
  rate_limit_no_pause pubRateLimited rfl

/-- Claim C3, counterexample: on a rate-limit signal during upload the
    trace is the bare upload attempt — failure is reported and no post is
    created, but no sleep action occurs, refuting the claimed cooldown
    pause. -/
theorem rate_limit_immediate_failure :
    tweet_images_from_folder pubRateLimited = (false, [Eff.mediaUpload "pic.png"])
    ∧ (tweet_images_from_folder pubRateLimited).2.countP isSleepEff = 0 := by
  decide

/-- Claim C6 (corrected): an absent parent-folder identifier is not
    checked; the run proceeds and its first external action is the
    folder-listing API call, with the absent value rendered as the string
    None in the query. -/
theorem missing_folder_id_still_calls_api :
    ∀ (pages : Nat → List Folder) (numPages : Nat) (sh : List Folder → List Folder)
      (filesOf : String → List RFile) (pubEnvOf : String → PubEnv),
      ((tweet_random_images ⟨none, pages, numPages, sh, filesOf, pubEnvOf⟩).2).head?
        = some (Eff.driveListFolders "None") := by
  intro pages numPages sh filesOf pubEnvOf
  unfold tweet_random_images
  cases hsel : select_valid_drive_folder sh filesOf (list_drive_folders pages numPages) <;>
    simp [hsel, pyRenderOpt]

/-- Claim C6, counterexample: a run whose configuration lacks the folder
    identifier still performs a storage API call — it is not aborted
    before any API call as the claim requires. -/
theorem missing_folder_id_run :
    tweet_random_images runMissingFolderId = (none, [Eff.driveListFolders "None"]) := by
  decide

/-- Claim C7 (corrected): the alt-text excerpt is nonempty whenever the
    trimmed description content does not begin with a period; content
    beginning with a period yields an empty excerpt, so the invariant as
    stated fails there. -/
theorem alt_text_nonempty_unless_leading_period (raw : String)
    (h1 : stripL raw.toList ≠ [])
    (h2 : (stripL raw.toList).head? ≠ some '.') :
    (get_alt_text_from_description (some raw)).1 ≠ "" := by
  cases hc : stripL raw.toList with
  | nil => exact absurd hc h1
  | cons a t =>
      have ha : isPySpace a = false := stripL_head_not_space raw.toList a t hc
      have hadot : a ≠ '.' := by
        intro hEq
        exact h2 (by rw [hc, hEq]; rfl)
      have hne : stripL raw.toList ≠ [] := by rw [hc]; simp
      rw [get_alt_some_eq raw hne]
      exact string_mk_ne_empty (altL_ne_nil (stripL raw.toList) a t hc ha hadot)

/-- Claim C7, witness. -/
theorem alt_text_nonempty_witness :
    (get_alt_text_from_description (some "Hi. There")).1 ≠ "" :=
  alt_text_nonempty_unless_leading_period "Hi. There" (by decide) (by decide)

/-- Claim C7, counterexample: content beginning with a period produces an
    empty excerpt, and publishing still proceeds, attaching the empty alt
    text to the media — refuting the claimed nonemptiness invariant. -/
theorem leading_period_gives_empty_alt :
    (get_alt_text_from_description (some ".abc")).1 = ""
    ∧ tweet_images_from_folder pubLeadingPeriod
      = (true, [Eff.mediaUpload "pic.png", Eff.mediaMetadata "",
                Eff.createTweet tweet_caption]) := by
  decide
